import Mathlib

/-!
Verification of the Opal custom-tools handlers (Optimizely experiment tools).

The development shallowly embeds the pre-dispatch phase of each HTTP tool
handler: parameter destructuring, JavaScript-style truthiness checks,
authentication-token extraction, project-id fallback resolution, integer
parsing via `parseInt`, JSON-string parsing of array parameters, and
request-body assembly.  JavaScript objects are embedded as ordered
association lists of `Json` values, so spread/override semantics are
represented faithfully.  Numbers are embedded as `Int`/`Rat` (the inputs the
tools manipulate are integers and decimal fractions; no float rounding is
exercised by the claims).  Each handler's embedding stops at the single
outbound `fetch`: the handler either returns the `HttpRequest` it would
dispatch or the error it throws first, and a `...Dispatches` function
derives the list of outbound calls (empty exactly when an error was thrown
before the fetch).
-/

/-- JSON values, embedding the JavaScript values the tools assemble and
parse.  Object fields are an ordered association list, matching JS property
insertion order.  Numbers are restricted to integers, which covers every
JSON document the tools construct or receive in the claims (ids, counts,
weights). -/
inductive Json where
  | str (text : String) : Json
  | num (int : Int) : Json
  | bool (flag : Bool) : Json
  | null : Json
  | arr (items : List Json) : Json
  | obj (props : List (String × Json)) : Json

/-- First field bound to key `k` in a JS object (the tools never build
objects with duplicate keys). -/
def getField (fields : List (String × Json)) (k : String) : Option Json :=
  (fields.find? (fun p => p.1 = k)).map (fun p => p.2)

/-- JS property assignment / spread-override: replace the value in place if
the key exists, otherwise append the new field, as JS object literals do. -/
def setField (fields : List (String × Json)) (k : String) (v : Json) :
    List (String × Json) :=
  if fields.any (fun p => p.1 = k) then
    fields.map (fun p => if p.1 = k then (k, v) else p)
  else
    fields ++ [(k, v)]

/-- JavaScript truthiness of a JSON value. -/
def jsTruthy : Json → Bool
  | Json.null => false
  | Json.bool b => b
  | Json.num n => n ≠ 0
  | Json.str s => s ≠ ""
  | Json.arr _ => true
  | Json.obj _ => true

/-- JS `a || default` on an optional object property: the property when it
is present and truthy, otherwise the default. -/
def jsOrJson (a : Option Json) (d : Json) : Json :=
  match a with
  | some v => if jsTruthy v then v else d
  | none => d

/-- JSON whitespace skipping. -/
def skipWs (cs : List Char) : List Char :=
  cs.dropWhile (fun c => c = ' ' || c = '\n' || c = '\t' || c = '\r')

/-- Decoded form of a backslash escape in a JSON string literal, when it is
one of the escapes the tools' inputs use. -/
def unescapeChar (c : Char) : Option Char :=
  if c = 'n' then some '\n'
  else if c = 't' then some '\t'
  else if c = 'r' then some '\r'
  else if c = '"' || c = '\\' || c = '/' then some c
  else none

/-- Body of a JSON string literal: characters up to the closing quote, with
the common escapes.  Returns the decoded characters and the remaining
input. -/
def parseStrChars : List Char → Except String (List Char × List Char)
  | [] => .error "Unterminated string in JSON"
  | '"' :: rest => .ok ([], rest)
  | '\\' :: c :: rest =>
    match unescapeChar c with
    | some ec =>
      match parseStrChars rest with
      | .ok (tcs, r) => .ok (ec :: tcs, r)
      | .error e => .error e
    | none => .error "Unsupported escape in JSON string"
  | '\\' :: [] => .error "Unterminated string in JSON"
  | c :: rest =>
    match parseStrChars rest with
    | .ok (tcs, r) => .ok (c :: tcs, r)
    | .error e => .error e

/-- Numeric value of a list of decimal digit characters. -/
def digitsVal (ds : List Char) : Nat :=
  ds.foldl (fun acc c => acc * 10 + (c.toNat - 48)) 0

/-- Mode of the fueled JSON parser: parsing a value, the remaining elements
of an array, or the remaining fields of an object. -/
inductive PMode where
  | val : PMode
  | arrLoop (acc : List Json) : PMode
  | objLoop (acc : List (String × Json)) : PMode

/-- Fueled recursive-descent JSON parser (model of the library
`JSON.parse`, restricted to integer numerals, which suffices for every
input the tools receive in the claims).  The fuel only bounds recursion
depth; `jsonParse` supplies enough for any input. -/
def parseStep : Nat → PMode → List Char → Except String (Json × List Char)
  | 0, _, _ => .error "JSON input too complex"
  | Nat.succ fuel, PMode.val, cs =>
    match skipWs cs with
    | [] => .error "Unexpected end of JSON input"
    | c :: rest =>
      if c = '"' then
        match parseStrChars rest with
        | .ok (tcs, r) => .ok (Json.str (String.mk tcs), r)
        | .error e => .error e
      else if c = '[' then
        match skipWs rest with
        | ']' :: r => .ok (Json.arr [], r)
        | _ => parseStep fuel (PMode.arrLoop []) rest
      else if c = '\x7b' then
        match skipWs rest with
        | '\x7d' :: r => .ok (Json.obj [], r)
        | _ => parseStep fuel (PMode.objLoop []) rest
      else if c = 't' then
        match rest with
        | 'r' :: 'u' :: 'e' :: r => .ok (Json.bool true, r)
        | _ => .error "Unexpected token in JSON"
      else if c = 'f' then
        match rest with
        | 'a' :: 'l' :: 's' :: 'e' :: r => .ok (Json.bool false, r)
        | _ => .error "Unexpected token in JSON"
      else if c = 'n' then
        match rest with
        | 'u' :: 'l' :: 'l' :: r => .ok (Json.null, r)
        | _ => .error "Unexpected token in JSON"
      else if c = '-' then
        match rest.takeWhile Char.isDigit with
        | [] => .error "Invalid number in JSON"
        | ds => .ok (Json.num (-(digitsVal ds : Int)), rest.dropWhile Char.isDigit)
      else if c.isDigit then
        .ok (Json.num (digitsVal ((c :: rest).takeWhile Char.isDigit) : Int),
             (c :: rest).dropWhile Char.isDigit)
      else .error "Unexpected token in JSON"
  | Nat.succ fuel, PMode.arrLoop acc, cs =>
    match parseStep fuel PMode.val cs with
    | .error e => .error e
    | .ok (v, afterVal) =>
      match skipWs afterVal with
      | ',' :: afterComma => parseStep fuel (PMode.arrLoop (v :: acc)) afterComma
      | ']' :: afterClose => .ok (Json.arr (v :: acc).reverse, afterClose)
      | _ => .error "Expected comma or closing bracket in JSON array"
  | Nat.succ fuel, PMode.objLoop acc, cs =>
    match skipWs cs with
    | '"' :: afterQuote =>
      match parseStrChars afterQuote with
      | .error e => .error e
      | .ok (kcs, afterKey) =>
        match skipWs afterKey with
        | ':' :: afterColon =>
          match parseStep fuel PMode.val afterColon with
          | .error e => .error e
          | .ok (v, afterVal) =>
            match skipWs afterVal with
            | ',' :: afterComma =>
              parseStep fuel (PMode.objLoop ((String.mk kcs, v) :: acc)) afterComma
            | '\x7d' :: afterClose =>
              .ok (Json.obj ((String.mk kcs, v) :: acc).reverse, afterClose)
            | _ => .error "Expected comma or closing brace in JSON object"
        | _ => .error "Expected colon in JSON object"
    | _ => .error "Expected string key in JSON object"

/-- Model of `JSON.parse`: parse one value and require only whitespace to
follow. -/
def jsonParse (s : String) : Except String Json :=
  match parseStep (s.length + 1) PMode.val s.data with
  | .error e => .error e
  | .ok (v, rest) =>
    match skipWs rest with
    | [] => .ok v
    | _ => .error "Unexpected trailing characters in JSON"

/-- Leading run of decimal digits interpreted as a number; `none` when there
is no leading digit (the `NaN` case of `parseInt`). -/
def digitsOf (cs : List Char) : Option Nat :=
  match cs.takeWhile Char.isDigit with
  | [] => none
  | ds => some (digitsVal ds)

/-- Model of JavaScript `parseInt(s, 10)`: skip leading whitespace, read an
optional sign and then the longest run of digits, ignoring everything after
it; no digits means `NaN` (`none`). -/
def jsParseInt (s : String) : Option Int :=
  match s.data.dropWhile Char.isWhitespace with
  | [] => none
  | c :: rest =>
    if c = '-' then (digitsOf rest).map (fun n => -(n : Int))
    else if c = '+' then (digitsOf rest).map (fun n => (n : Int))
    else (digitsOf (c :: rest)).map (fun n => (n : Int))

/-- JS truthiness of an optional string parameter (`undefined` and `""` are
falsy). -/
def nonEmptyStr : Option String → Option String
  | some s => if s = "" then none else some s
  | none => none

/-- JS `a || b` on optional strings: `a` when truthy, otherwise `b`
unchanged. -/
def jsOrStr (a b : Option String) : Option String :=
  match nonEmptyStr a with
  | some s => some s
  | none => b

/-- `credentials.access_token` sub-object of the injected authentication
context. -/
structure Credentials where
  access_token : Option String

/-- `context` sub-object of the injected authentication context. -/
structure AuthContext where
  project_id : Option String

/-- The injected authentication context (`authData`), with the top-level
alternate key spellings the handlers probe. -/
structure AuthData where
  credentials : Option Credentials
  context : Option AuthContext
  project_id : Option String
  projectId : Option String

/-- `authData?.credentials?.access_token` followed by the `!accessToken`
truthiness check: the resolvable access token, `none` when the handlers
would throw the authentication error. -/
def resolvedToken (a : Option AuthData) : Option String :=
  match a with
  | none => none
  | some ad =>
    match ad.credentials with
    | none => none
    | some c => nonEmptyStr c.access_token

/-- `authData?.context?.project_id`. -/
def ctxProjectId (a : Option AuthData) : Option String :=
  match a with
  | none => none
  | some ad =>
    match ad.context with
    | none => none
    | some ctx => ctx.project_id

/-- `authData?.project_id`. -/
def topProjectId (a : Option AuthData) : Option String :=
  match a with
  | none => none
  | some ad => ad.project_id

/-- `(authData as any)?.projectId`. -/
def altProjectId (a : Option AuthData) : Option String :=
  match a with
  | none => none
  | some ad => ad.projectId

/-- The four-candidate fallback chain of `listEvents` and of the
`createExperiment` variant in `src/unnamed/part_000`:
`authData?.context?.project_id || authData?.project_id ||
(authData as any)?.projectId || paramProjectId`. -/
def resolveProjectId4 (a : Option AuthData) (paramProjectId : Option String) :
    Option String :=
  jsOrStr (jsOrStr (jsOrStr (ctxProjectId a) (topProjectId a)) (altProjectId a))
    paramProjectId

/-- The two-candidate chain of the `createExperiment` variant in
`src/src/tools/create-experiment.ts`:
`authData?.context?.project_id || paramProjectId`. -/
def resolveProjectId2 (a : Option AuthData) (paramProjectId : Option String) :
    Option String :=
  jsOrStr (ctxProjectId a) paramProjectId

/-- The outbound HTTP call a handler is about to dispatch when it reaches
its single `fetch`. -/
structure HttpRequest where
  method : String
  url : String
  bearer : String
  body : Option Json

/-- Authentication-required error message shared by the authenticated
handlers. -/
def authRequiredMsg : String :=
  "Authentication required. Please ensure OptiID authentication is configured."

/-- Missing-project-id error message of `listEvents` and of the
`createExperiment` variants without the authData dump. -/
def projectIdRequiredMsg : String :=
  "project_id is required. Either provide it as a parameter or ensure it's available in the context when running from Optimizely."

/-- Parameters of `list_events`. -/
structure ListEventsParams where
  project_id : Option String
  include_classic : Option Bool

/-- Pre-dispatch phase of `listEvents` (src/src/tools/list-events.ts):
token check, project-id fallback resolution, `parseInt` validation, then
the GET request it dispatches. -/
def listEventsPrepare (p : ListEventsParams) (a : Option AuthData) :
    Except String HttpRequest :=
  match resolvedToken a with
  | none => .error authRequiredMsg
  | some tok =>
    match nonEmptyStr (resolveProjectId4 a p.project_id) with
    | none => .error projectIdRequiredMsg
    | some pidStr =>
      match jsParseInt pidStr with
      | none =>
        .error ("Invalid project_id: \"" ++ pidStr ++ "\". Must be a valid integer.")
      | some pid =>
        .ok { method := "GET"
              url := "https://api.optimizely.com/v2/events?project_id=" ++ toString pid
                ++ (if p.include_classic.getD false then "&include_classic=true" else "")
              bearer := tok
              body := none }

/-- `[r]` when `listEvents` reaches its `fetch`, `[]` when it throws
first. -/
def listEventsDispatches (p : ListEventsParams) (a : Option AuthData) :
    List HttpRequest :=
  match listEventsPrepare p a with
  | .ok r => [r]
  | .error _ => []

/-- Parameters of `update_experiment`; the interface's index signature means
arbitrary further fields travel in `otherFields` (the rest-spread the
handler applies). -/
structure UpdateParams where
  experiment_id : String
  metrics : Option String
  otherFields : List (String × Json)

/-- Pre-dispatch phase of the `updateExperiment` variant in
`src/src/tools/update-experiment.ts`: token check, `parseInt` validation of
`experiment_id`, request body `{...otherFields}` with `metrics` set to the
raw `JSON.parse` result when the parameter is truthy (no defaults, no
account id). -/
def updateExperimentSrcPrepare (p : UpdateParams) (a : Option AuthData) :
    Except String HttpRequest :=
  match resolvedToken a with
  | none => .error authRequiredMsg
  | some tok =>
    match jsParseInt p.experiment_id with
    | none =>
      .error ("Invalid experiment_id: \"" ++ p.experiment_id ++ "\". Must be a valid integer.")
    | some eid =>
      match nonEmptyStr p.metrics with
      | none =>
        .ok { method := "PATCH"
              url := "https://api.optimizely.com/v2/experiments/" ++ toString eid
              bearer := tok
              body := some (Json.obj p.otherFields) }
      | some mstr =>
        match jsonParse mstr with
        | .error e => .error ("Invalid metrics JSON: " ++ e)
        | .ok v =>
          .ok { method := "PATCH"
                url := "https://api.optimizely.com/v2/experiments/" ++ toString eid
                bearer := tok
                body := some (Json.obj (setField p.otherFields "metrics" v)) }

/-- `[r]` when the src `updateExperiment` reaches its `fetch`, `[]` when it
throws first. -/
def updateExperimentSrcDispatches (p : UpdateParams) (a : Option AuthData) :
    List HttpRequest :=
  match updateExperimentSrcPrepare p a with
  | .ok r => [r]
  | .error _ => []

/-- The fixed account id the `part_000` update variant injects. -/
def fixedAccountId : Int := 22816830226

/-- `{...metric, aggregator: metric.aggregator || "unique", account_id:
22816830226, event_type: metric.event_type || "custom", scope: metric.scope
|| "visitor", winning_direction: metric.winning_direction || "increasing"}`
applied to one parsed metric.  A non-object element spreads to an empty
object, as JS spread of a primitive does. -/
def applyMetricDefaults (m : Json) : Json :=
  let base : List (String × Json) :=
    match m with
    | Json.obj fs => fs
    | _ => []
  Json.obj
    (setField
      (setField
        (setField
          (setField
            (setField base "aggregator" (jsOrJson (getField base "aggregator") (Json.str "unique")))
            "account_id" (Json.num fixedAccountId))
          "event_type" (jsOrJson (getField base "event_type") (Json.str "custom")))
        "scope" (jsOrJson (getField base "scope") (Json.str "visitor")))
      "winning_direction" (jsOrJson (getField base "winning_direction") (Json.str "increasing")))

/-- Pre-dispatch phase of the `updateExperiment` variant in
`src/unnamed/part_000`: token check, `parseInt` validation, request body
`{account_id: 22816830226, ...otherFields}`, and, when `metrics` parses to
an array, per-metric defaults and account-id injection. -/
def updateExperimentP0Prepare (p : UpdateParams) (a : Option AuthData) :
    Except String HttpRequest :=
  match resolvedToken a with
  | none => .error authRequiredMsg
  | some tok =>
    match jsParseInt p.experiment_id with
    | none =>
      .error ("Invalid experiment_id: \"" ++ p.experiment_id ++ "\". Must be a valid integer.")
    | some eid =>
      let body0 : List (String × Json) :=
        p.otherFields.foldl (fun acc kv => setField acc kv.1 kv.2)
          [("account_id", Json.num fixedAccountId)]
      match nonEmptyStr p.metrics with
      | none =>
        .ok { method := "PATCH"
              url := "https://api.optimizely.com/v2/experiments/" ++ toString eid
              bearer := tok
              body := some (Json.obj body0) }
      | some mstr =>
        match jsonParse mstr with
        | .error e => .error ("Invalid metrics JSON: " ++ e)
        | .ok v =>
          let mv : Json :=
            match v with
            | Json.arr ms => Json.arr (ms.map applyMetricDefaults)
            | other => other
          .ok { method := "PATCH"
                url := "https://api.optimizely.com/v2/experiments/" ++ toString eid
                bearer := tok
                body := some (Json.obj (setField body0 "metrics" mv)) }

/-- `[r]` when the `part_000` `updateExperiment` reaches its `fetch`, `[]`
when it throws first. -/
def updateExperimentP0Dispatches (p : UpdateParams) (a : Option AuthData) :
    List HttpRequest :=
  match updateExperimentP0Prepare p a with
  | .ok r => [r]
  | .error _ => []

/-- `if (variations) JSON.parse(variations) else defaults`, with the
wrapped error message the create variants throw. -/
def parsedVariationsOrDefault (variations : Option String) (defaults : Json) :
    Except String Json :=
  match nonEmptyStr variations with
  | none => .ok defaults
  | some s =>
    match jsonParse s with
    | .ok v => .ok v
    | .error e => .error ("Invalid variations JSON: " ++ e)

/-- Default variations of the `createExperiment` variant in
`src/src/tools/create-experiment.ts` (and of `src/unnamed/part_001`):
control and first treatment, no traffic-allocation fields. -/
def defaultVariationsSrc : Json :=
  Json.arr
    [Json.obj [("name", Json.str "Original"), ("actions", Json.arr [])],
     Json.obj [("name", Json.str "Variation 1"), ("actions", Json.arr [])]]

/-- Default variations of the `createExperiment` variants in
`src/unnamed/part_000`: control and first treatment with an explicit 50/50
split (`weight: 5000, totalTraffic: 50, percentage: 50` each). -/
def defaultVariationsP0 : Json :=
  Json.arr
    [Json.obj [("name", Json.str "Original"), ("weight", Json.num 5000),
               ("totalTraffic", Json.num 50), ("percentage", Json.num 50),
               ("actions", Json.arr [])],
     Json.obj [("name", Json.str "Variation #1"), ("weight", Json.num 5000),
               ("totalTraffic", Json.num 50), ("percentage", Json.num 50),
               ("actions", Json.arr [])]]

/-- Parameters of the `create_experiment` variant in
`src/src/tools/create-experiment.ts`. -/
structure CreateSrcParams where
  project_id : Option String
  description : String
  experiment_name : String
  status : Option String
  type : Option String
  variations : Option String

/-- Pre-dispatch phase of the `createExperiment` variant in
`src/src/tools/create-experiment.ts`: token check, two-candidate project-id
chain (kept as a string, no `parseInt`), variations parse or default, body
`{project_id, status, description, type, edit_url: experiment_name,
variations}`. -/
def createExperimentSrcPrepare (p : CreateSrcParams) (a : Option AuthData) :
    Except String HttpRequest :=
  match resolvedToken a with
  | none => .error authRequiredMsg
  | some tok =>
    match nonEmptyStr (resolveProjectId2 a p.project_id) with
    | none => .error projectIdRequiredMsg
    | some pid =>
      match parsedVariationsOrDefault p.variations defaultVariationsSrc with
      | .error e => .error e
      | .ok vars =>
        .ok { method := "POST"
              url := "https://api.optimizely.com/v2/experiments"
              bearer := tok
              body := some (Json.obj
                [("project_id", Json.str pid),
                 ("status", Json.str (p.status.getD "not_started")),
                 ("description", Json.str p.description),
                 ("type", Json.str (p.type.getD "ab")),
                 ("edit_url", Json.str p.experiment_name),
                 ("variations", vars)]) }

/-- `[r]` when the src `createExperiment` reaches its `fetch`, `[]` when it
throws first. -/
def createExperimentSrcDispatches (p : CreateSrcParams) (a : Option AuthData) :
    List HttpRequest :=
  match createExperimentSrcPrepare p a with
  | .ok r => [r]
  | .error _ => []

/-- Parameters of the first `create_experiment` variant in
`src/unnamed/part_000`. -/
structure CreateP0Params where
  project_id : Option String
  name : String
  description : Option String
  edit_url : Option String
  status : Option String
  type : Option String
  variations : Option String

/-- Rendering of the authData structure appended to the part_000
missing-project-id message (`JSON.stringify(authData, null, 2)`); the exact
pretty-printed formatting is not modelled, only that the message embeds a
dump of the context.  No claim inspects this branch's message. -/
def authDataDump (a : Option AuthData) : String :=
  match a with
  | none => "undefined"
  | some ad =>
    "credentials: " ++ (match ad.credentials with
      | some c => (nonEmptyStr c.access_token).getD ""
      | none => "undefined")
    ++ ", context: " ++ ((ctxProjectId (some ad)).getD "undefined")
    ++ ", project_id: " ++ (ad.project_id.getD "undefined")
    ++ ", projectId: " ++ (ad.projectId.getD "undefined")

/-- `url_targeting.conditions` of the part_000 create variant: the source
serialises `["and", ["or", {match_type, type, value}]]` to a JSON string;
the embedding keeps the array structural (no claim inspects it). -/
def conditionsFor (editUrl : String) : Json :=
  Json.arr
    [Json.str "and",
     Json.arr
       [Json.str "or",
        Json.obj [("match_type", Json.str "simple"), ("type", Json.str "url"),
                  ("value", Json.str editUrl)]]]

/-- Pre-dispatch phase of the first `createExperiment` variant in
`src/unnamed/part_000`: token check, four-candidate project-id chain,
`parseInt` validation, variations parse or weighted default, body
`{project_id, name, description, status, type, variations}` plus
`url_targeting` when `edit_url` is truthy.  Keys whose value is `undefined`
(absent `description`) are omitted, as `JSON.stringify` drops them. -/
def createExperimentP0Prepare (p : CreateP0Params) (a : Option AuthData) :
    Except String HttpRequest :=
  match resolvedToken a with
  | none => .error authRequiredMsg
  | some tok =>
    match nonEmptyStr (resolveProjectId4 a p.project_id) with
    | none =>
      .error (projectIdRequiredMsg ++ " AuthData structure: " ++ authDataDump a)
    | some pidStr =>
      match jsParseInt pidStr with
      | none =>
        .error ("Invalid project_id: \"" ++ pidStr ++ "\". Must be a valid integer.")
      | some pid =>
        match parsedVariationsOrDefault p.variations defaultVariationsP0 with
        | .error e => .error e
        | .ok vars =>
          .ok { method := "POST"
                url := "https://api.optimizely.com/v2/experiments"
                bearer := tok
                body := some (Json.obj
                  ([("project_id", Json.num pid), ("name", Json.str p.name)]
                   ++ (match p.description with
                       | some d => [("description", Json.str d)]
                       | none => [])
                   ++ [("status", Json.str (p.status.getD "not_started")),
                       ("type", Json.str (p.type.getD "a/b")),
                       ("variations", vars)]
                   ++ (match nonEmptyStr p.edit_url with
                       | some u =>
                         [("url_targeting", Json.obj
                           [("edit_url", Json.str u),
                            ("activation_type", Json.str "immediate"),
                            ("deactivation_enabled", Json.bool false),
                            ("conditions", conditionsFor u)])]
                       | none => []))) }

/-- `[r]` when the part_000 `createExperiment` reaches its `fetch`, `[]`
when it throws first. -/
def createExperimentP0Dispatches (p : CreateP0Params) (a : Option AuthData) :
    List HttpRequest :=
  match createExperimentP0Prepare p a with
  | .ok r => [r]
  | .error _ => []

/-- The three default follow-up actions of `generate_experiment_report`. -/
def defaultActions : List String :=
  ["Review detailed results in the dashboard",
   "Plan follow-up experiments",
   "Document learnings for future tests"]

/-- JS `s.startsWith("[")` for a single-character prefix: does the first
character equal `c`? -/
def startsWithChar (s : String) (c : Char) : Bool :=
  match s.data with
  | [] => false
  | d :: _ => d = c

/-- JS `s.split(",")` on the character level: split into the (possibly
empty) chunks between commas. -/
def splitCommaAux : List Char → List Char → List (List Char)
  | [], acc => [acc.reverse]
  | ',' :: rest, acc => acc.reverse :: splitCommaAux rest []
  | c :: rest, acc => splitCommaAux rest (c :: acc)

/-- JS `String.trim`: strip whitespace from both ends. -/
def jsTrim (cs : List Char) : List Char :=
  (((cs.dropWhile Char.isWhitespace).reverse).dropWhile Char.isWhitespace).reverse

/-- `s.split(",").map(a => a.trim())`. -/
def jsSplitTrim (s : String) : List String :=
  (splitCommaAux s.data []).map (fun cs => String.mk (jsTrim cs))

/-- Actions normalization of `generateExperimentReport`
(src/src/tools/generate-experiment-report.ts, lines 152-174): when the
parameter is truthy, JSON-parse it if it starts with `[` (wrapping a parse
failure), otherwise split on commas and trim; when absent (or empty, which
is falsy), use the three defaults. -/
def parseActions (actionsStr : Option String) : Except String Json :=
  match nonEmptyStr actionsStr with
  | some s =>
    if startsWithChar s '[' = true then
      match jsonParse s with
      | .ok v => .ok v
      | .error e => .error ("Invalid actions format: " ++ e)
    else
      .ok (Json.arr ((jsSplitTrim s).map Json.str))
  | none => .ok (Json.arr (defaultActions.map Json.str))

/-- Parameters of `generate_experiment_report`; the three required string
parameters are optional here so that absent and empty-string inputs are
both representable. -/
structure ReportParams where
  recipientEmail : Option String
  experimentName : Option String
  optimizelyResultsJson : Option String
  hypothesis : Option String
  recommendationStatus : Option String
  recommendationTitle : Option String
  recommendationDescription : Option String
  actions : Option String

/-- Missing-required-fields error message of `generateExperimentReport`. -/
def reportRequiredMsg : String :=
  "recipientEmail, experimentName, and optimizelyResultsJson are required fields"

/-- `if (!recipientEmail || !experimentName || !optimizelyResultsJson)`:
true when the handler throws the missing-required-fields error. -/
def reportMissingRequired (p : ReportParams) : Bool :=
  (nonEmptyStr p.recipientEmail).isNone
  || (nonEmptyStr p.experimentName).isNone
  || (nonEmptyStr p.optimizelyResultsJson).isNone

/-- Validation-and-parsing phase of `generateExperimentReport`, in source
order: required-fields check, `JSON.parse` of the results JSON, actions
normalization.  Yields the parsed results value and the actions value the
handler goes on to embed in its request body. -/
def generateReportPhase (p : ReportParams) : Except String (Json × Json) :=
  if reportMissingRequired p then .error reportRequiredMsg
  else
    match jsonParse ((nonEmptyStr p.optimizelyResultsJson).getD "") with
    | .error e => .error ("Invalid Optimizely results JSON: " ++ e)
    | .ok resultsData =>
      match parseActions p.actions with
      | .error e => .error e
      | .ok acts => .ok (resultsData, acts)

/-- The raw strings `generateExperimentReport` hands to `JSON.parse` during
an invocation, in order: none when the required check throws, the results
JSON afterwards, plus the actions string when it is truthy, starts with `[`
and is reached (the results JSON parsed). -/
def generateReportParseCalls (p : ReportParams) : List String :=
  if reportMissingRequired p then []
  else
    let rj := (nonEmptyStr p.optimizelyResultsJson).getD ""
    [rj] ++
      (match jsonParse rj with
       | .error _ => []
       | .ok _ =>
         match nonEmptyStr p.actions with
         | some s => if startsWithChar s '[' then [s] else []
         | none => [])

/-- The fixed report-generation endpoint. -/
def reportEndpoint : String :=
  "https://mjjlumqjnsqkgforfhdw.supabase.co/functions/v1/generate-report"

/-- URLs `generateExperimentReport` dispatches to: the single report
endpoint when every validation and parsing step succeeded, nothing when the
handler threw first. -/
def generateReportDispatches (p : ReportParams) : List String :=
  match generateReportPhase p with
  | .ok _ => [reportEndpoint]
  | .error _ => []

/-- The `lift` sub-object a variation result may carry (fractions, not yet
scaled to percentages). -/
structure LiftData where
  significance : Rat
  value : Rat
deriving DecidableEq

/-- One entry of a metric's `results` mapping (the fields the
transformation reads). -/
structure VariationResult where
  name : String
  rate : Rat
  lift : Option LiftData
deriving DecidableEq

/-- One element of the vendor `metrics` array: its name and its `results`
entries in object-iteration order. -/
structure MetricInput where
  name : String
  results : List VariationResult

/-- One entry of `reach.variations`. -/
structure ReachVariation where
  name : String
  count : Int
  is_baseline : Bool

/-- The vendor results payload `transformOptimizelyResults` reads, with the
two timestamps already taken as milliseconds (the claims quantify at that
level; `Date` string parsing is not modelled). -/
structure ResultsPayload where
  start_ms : Int
  end_ms : Int
  experiment_id : Int
  metrics : List MetricInput
  reach_variations : List ReachVariation
  total_count : Int
  confidence_level : Rat

/-- Transformed per-variation entry of a metric. -/
structure MetricVariationOut where
  name : String
  value : Rat
  significance : Rat

/-- Transformed metric. -/
structure MetricOut where
  name : String
  lift : String
  variations : List MetricVariationOut

/-- Transformed `reach` variation. -/
structure VariationOut where
  name : String
  sampleSize : Int
  description : String

/-- The transformed payload fields the claims concern (`dateRange`, a
locale-formatted date string, is not modelled; no claim mentions it). -/
structure TransformOut where
  experimentId : String
  duration : String
  sampleSize : Int
  confidenceLevel : Rat
  metrics : List MetricOut
  variations : List VariationOut

/-- `Math.ceil((endDate.getTime() - startDate.getTime()) / (1000*60*60*24))`. -/
def durationDays (startMs endMs : Int) : Int :=
  Int.ceil (((endMs - startMs : Int) : Rat) / (1000 * 60 * 60 * 24))

/-- Model of JavaScript `(x).toFixed(1)`: round to the nearest multiple of
one tenth, ties toward positive infinity, and print with one decimal
digit. -/
def jsToFixed1 (q : Rat) : String :=
  let n : Int := Int.floor (q * 10 + 1 / 2)
  let a := n.natAbs
  let s := toString (a / 10) ++ "." ++ toString (a % 10)
  if n < 0 then "-" ++ s else s

/-- `Object.values(results).filter(r => r.lift).map(r => r.lift.value)`. -/
def liftValues (results : List VariationResult) : List Rat :=
  results.filterMap (fun r => r.lift.map (fun l => l.value))

/-- `Math.max(...liftValues)` when non-empty, else the `0` the source
substitutes. -/
def bestLift (results : List VariationResult) : Rat :=
  match liftValues results with
  | [] => 0
  | x :: xs => xs.foldl max x

/-- `bestLift > 0 ? "+" + (bestLift*100).toFixed(1) + "%" : "N/A"`. -/
def liftStr (results : List VariationResult) : String :=
  if bestLift results > 0 then "+" ++ jsToFixed1 (bestLift results * 100) ++ "%"
  else "N/A"

/-- Transformation of one vendor metric: per-variation display values
(`rate * 100`, significance `* 100` or `0` without a lift) and the headline
lift string. -/
def transformMetric (m : MetricInput) : MetricOut :=
  { name := m.name
    lift := liftStr m.results
    variations := m.results.map (fun r =>
      { name := r.name
        value := r.rate * 100
        significance :=
          match r.lift with
          | some l => l.significance * 100
          | none => 0 }) }

/-- `transformOptimizelyResults` over the structured payload. -/
def transformOptimizelyResults (p : ResultsPayload) : TransformOut :=
  { experimentId := toString p.experiment_id
    duration := toString (durationDays p.start_ms p.end_ms) ++ " days"
    sampleSize := p.total_count
    confidenceLevel := p.confidence_level * 100
    metrics := p.metrics.map transformMetric
    variations := p.reach_variations.map (fun v =>
      { name := v.name
        sampleSize := v.count
        description :=
          if v.is_baseline then "Original experience (Control)"
          else "Treatment variation" }) }

/-- Auth context with only an access token (no project information). -/
def tokAuth : AuthData :=
  { credentials := some { access_token := some "tok" }
    context := none
    project_id := none
    projectId := none }

/-- Auth context carrying both an access token and a context project id. -/
def ctxAuth : AuthData :=
  { credentials := some { access_token := some "tok" }
    context := some { project_id := some "222" }
    project_id := none
    projectId := none }

/-- Metric whose only variation result carries no lift object. -/
def metricNoLift : MetricInput :=
  { name := "m1"
    results := [{ name := "Original", rate := 296 / 1000, lift := none }] }

/-- Metric with one lifted variation, lift value 0.64. -/
def metricWithLift : MetricInput :=
  { name := "m2"
    results := [{ name := "Original", rate := 296 / 1000, lift := none },
                { name := "Variation #2", rate := 485 / 1000,
                  lift := some { significance := 757 / 1000, value := 16 / 25 } }] }

/-- Payload spanning one millisecond more than a day. -/
def samplePayload : ResultsPayload :=
  { start_ms := 0, end_ms := 86400001, experiment_id := 4760416228737024
    metrics := [], reach_variations := [], total_count := 823
    confidence_level := 9 / 10 }

/-- Report parameters with an empty-string recipient email. -/
def emptyEmailParams : ReportParams :=
  { recipientEmail := some "", experimentName := some "n",
    optimizelyResultsJson := some "\x7b\x7d", hypothesis := none,
    recommendationStatus := none, recommendationTitle := none,
    recommendationDescription := none, actions := none }

/-- Spec-side helper (for stating the resolution-order property): the first
non-empty candidate in a list of optional strings. -/
def firstNonEmpty : List (Option String) → Option String
  | [] => none
  | o :: rest =>
    match nonEmptyStr o with
    | some s => some s
    | none => firstNonEmpty rest

lemma nonEmptyStr_ne_empty {o : Option String} {s : String}
    (h : nonEmptyStr o = some s) : s ≠ "" := by
  cases o with
  | none => exact absurd h (by simp [nonEmptyStr])
  | some t =>
    by_cases ht : t = ""
    · simp only [nonEmptyStr, if_pos ht] at h
      exact Option.noConfusion h
    · simp only [nonEmptyStr, if_neg ht] at h
      injection h with h2
      subst h2
      exact ht

lemma nonEmptyStr_jsOrStr (a b : Option String) :
    nonEmptyStr (jsOrStr a b) =
      match nonEmptyStr a with
      | some s => some s
      | none => nonEmptyStr b := by
  unfold jsOrStr
  cases h : nonEmptyStr a with
  | none => rfl
  | some s => simp [nonEmptyStr, nonEmptyStr_ne_empty h]

lemma foldl_max_mem (xs : List Rat) (x : Rat) : xs.foldl max x ∈ x :: xs := by
  induction xs generalizing x with
  | nil => simp
  | cons y ys ih =>
    have h := ih (max x y)
    simp only [List.foldl_cons]
    rcases List.mem_cons.mp h with h1 | h1
    · rcases max_choice x y with hm | hm
      · rw [h1, hm]; exact List.mem_cons_self _ _
      · rw [h1, hm]; exact List.mem_cons.mpr (Or.inr (List.mem_cons_self _ _))
    · exact List.mem_cons.mpr (Or.inr (List.mem_cons.mpr (Or.inr h1)))

lemma le_foldl_max (xs : List Rat) (x : Rat) :
    ∀ a ∈ x :: xs, a ≤ xs.foldl max x := by
  induction xs generalizing x with
  | nil =>
    intro a ha
    rw [List.mem_singleton] at ha
    simp [ha]
  | cons y ys ih =>
    intro a ha
    simp only [List.foldl_cons]
    rcases List.mem_cons.mp ha with h1 | h1
    · rw [h1]
      exact le_trans (le_max_left x y)
        (ih (max x y) (max x y) (List.mem_cons_self _ _))
    · rcases List.mem_cons.mp h1 with h2 | h2
      · rw [h2]
        exact le_trans (le_max_right x y)
          (ih (max x y) (max x y) (List.mem_cons_self _ _))
      · exact ih (max x y) a (List.mem_cons.mpr (Or.inr h2))

/-- Claim C1, as stated, is false: with an explicit `project_id` parameter
`"111"` and a context-provided `"222"` both present, `list_events` resolves
and uses the context value `"222"`, not the explicit parameter. -/
theorem claim_C1_counterexample :
    listEventsPrepare { project_id := some "111", include_classic := none }
        (some ctxAuth) =
      .ok { method := "GET"
            url := "https://api.optimizely.com/v2/events?project_id=222"
            bearer := "tok", body := none } ∧
    nonEmptyStr (resolveProjectId4 (some ctxAuth) (some "111")) = some "222" ∧
    some "222" ≠ some "111" :=
  ⟨rfl, rfl, by decide⟩

/-- Claim C1 amended: the resolution order of the four-candidate chain used
by `list_events` and the part_000 `create_experiment` is
authentication-context value first, then the top-level and
alternately-spelled keys, and the explicit parameter last; the first
non-empty candidate wins, so when both an explicit parameter and a
non-empty context value are present, the context value is the one used. -/
theorem claim_C1_resolution_order (a : Option AuthData) (param : Option String) :
    nonEmptyStr (resolveProjectId4 a param) =
      firstNonEmpty [ctxProjectId a, topProjectId a, altProjectId a, param] ∧
    (∀ v, nonEmptyStr (ctxProjectId a) = some v →
      nonEmptyStr (resolveProjectId4 a param) = some v) := by
  constructor
  · rw [resolveProjectId4, nonEmptyStr_jsOrStr, nonEmptyStr_jsOrStr,
      nonEmptyStr_jsOrStr]
    simp only [firstNonEmpty]
    cases nonEmptyStr (ctxProjectId a) <;>
      cases nonEmptyStr (topProjectId a) <;>
      cases nonEmptyStr (altProjectId a) <;>
      cases nonEmptyStr param <;> rfl
  · intro v hv
    rw [resolveProjectId4, nonEmptyStr_jsOrStr, nonEmptyStr_jsOrStr,
      nonEmptyStr_jsOrStr, hv]

theorem claim_C1_resolution_order_witness :
    nonEmptyStr (resolveProjectId4 (some ctxAuth) (some "111")) = some "222" :=
  (claim_C1_resolution_order (some ctxAuth) (some "111")).2 "222" rfl

/-- Claim C2, as stated over every `update_experiment` call, is false: the
variant registered from `src/src/tools/update-experiment.ts`, given exactly
`metrics = '[{"event_id":1}]'`, assembles a body whose metric is the parsed
object unchanged — no aggregator, scope, event type or winning direction
defaults — and injects no account id at either level. -/
theorem claim_C2_counterexample :
    updateExperimentSrcPrepare
        { experiment_id := "100", metrics := some "[\x7b\"event_id\":1\x7d]",
          otherFields := [] }
        (some tokAuth) =
      .ok { method := "PATCH"
            url := "https://api.optimizely.com/v2/experiments/100"
            bearer := "tok"
            body := some (Json.obj
              [("metrics", Json.arr [Json.obj [("event_id", Json.num 1)]])]) } ∧
    getField [("event_id", Json.num 1)] "aggregator" = none ∧
    getField [("event_id", Json.num 1)] "account_id" = none ∧
    getField [("metrics", Json.arr [Json.obj [("event_id", Json.num 1)]])]
      "account_id" = none :=
  ⟨rfl, rfl, rfl, rfl⟩

/-- Claim C2 amended: the `update_experiment` variant in
`src/unnamed/part_000`, given exactly `metrics = '[{"event_id":1}]'`,
assembles a body whose metric carries aggregator "unique", scope "visitor",
event_type "custom", winning_direction "increasing" and the fixed account
id 22816830226, with the same account id also at top level; the variant in
`src/src/tools/update-experiment.ts` passes the parsed metrics through
unchanged and injects nothing. -/
theorem claim_C2_update_defaults :
    updateExperimentP0Prepare
        { experiment_id := "100", metrics := some "[\x7b\"event_id\":1\x7d]",
          otherFields := [] }
        (some tokAuth) =
      .ok { method := "PATCH"
            url := "https://api.optimizely.com/v2/experiments/100"
            bearer := "tok"
            body := some (Json.obj
              [("account_id", Json.num 22816830226),
               ("metrics", Json.arr
                 [Json.obj
                   [("event_id", Json.num 1),
                    ("aggregator", Json.str "unique"),
                    ("account_id", Json.num 22816830226),
                    ("event_type", Json.str "custom"),
                    ("scope", Json.str "visitor"),
                    ("winning_direction", Json.str "increasing")]])]) } :=
  rfl

/-- Claim C3, as stated, is false: the `create_experiment` variant
registered from `src/src/tools/create-experiment.ts`, when `variations` is
absent, assembles exactly two default variations ("Original" and
"Variation 1") but they carry no weight, percentage or totalTraffic field —
the request body encodes no 50/50 traffic split. -/
theorem claim_C3_counterexample :
    createExperimentSrcPrepare
        { project_id := some "100", description := "d", experiment_name := "n",
          status := none, type := none, variations := none }
        (some tokAuth) =
      .ok { method := "POST"
            url := "https://api.optimizely.com/v2/experiments"
            bearer := "tok"
            body := some (Json.obj
              [("project_id", Json.str "100"),
               ("status", Json.str "not_started"),
               ("description", Json.str "d"),
               ("type", Json.str "ab"),
               ("edit_url", Json.str "n"),
               ("variations", defaultVariationsSrc)]) } ∧
    defaultVariationsSrc = Json.arr
      [Json.obj [("name", Json.str "Original"), ("actions", Json.arr [])],
       Json.obj [("name", Json.str "Variation 1"), ("actions", Json.arr [])]] ∧
    getField [("name", Json.str "Original"), ("actions", Json.arr [])]
      "weight" = none ∧
    getField [("name", Json.str "Original"), ("actions", Json.arr [])]
      "percentage" = none ∧
    getField [("name", Json.str "Original"), ("actions", Json.arr [])]
      "totalTraffic" = none ∧
    getField [("name", Json.str "Variation 1"), ("actions", Json.arr [])]
      "weight" = none :=
  ⟨rfl, rfl, rfl, rfl, rfl, rfl⟩

/-- Claim C3 amended: when `variations` is absent every variant assembles
exactly two variations named for the control ("Original") and the first
treatment; the `part_000` variants carry an explicit 50/50 split (weight
5000, totalTraffic 50, percentage 50 on each variation), while the
`src/src/tools` variant (see the counterexample) carries no
traffic-allocation fields. -/
theorem claim_C3_default_variations :
    createExperimentP0Prepare
        { project_id := some "100", name := "n", description := none,
          edit_url := none, status := none, type := none, variations := none }
        (some tokAuth) =
      .ok { method := "POST"
            url := "https://api.optimizely.com/v2/experiments"
            bearer := "tok"
            body := some (Json.obj
              [("project_id", Json.num 100),
               ("name", Json.str "n"),
               ("status", Json.str "not_started"),
               ("type", Json.str "a/b"),
               ("variations", defaultVariationsP0)]) } ∧
    defaultVariationsP0 = Json.arr
      [Json.obj [("name", Json.str "Original"), ("weight", Json.num 5000),
                 ("totalTraffic", Json.num 50), ("percentage", Json.num 50),
                 ("actions", Json.arr [])],
       Json.obj [("name", Json.str "Variation #1"), ("weight", Json.num 5000),
                 ("totalTraffic", Json.num 50), ("percentage", Json.num 50),
                 ("actions", Json.arr [])]] :=
  ⟨rfl, rfl⟩

/-- Claim C4: in the transformed results, a metric none of whose variation
results carries a lift object gets the lift string "N/A"; a metric whose
lift values have plain numeric maximum v with v > 0 (no secondary
ordering) gets "+" followed by v*100 rounded to one decimal and "%". -/
theorem claim_C4_lift (m : MetricInput) :
    ((∀ r ∈ m.results, r.lift = none) → (transformMetric m).lift = "N/A") ∧
    (∀ v : Rat, v ∈ liftValues m.results →
      (∀ w ∈ liftValues m.results, w ≤ v) → 0 < v →
      (transformMetric m).lift = "+" ++ jsToFixed1 (v * 100) ++ "%") := by
  constructor
  · intro h
    have hlv : liftValues m.results = [] := by
      rw [liftValues, List.filterMap_eq_nil_iff]
      intro r hr
      rw [h r hr]
      rfl
    show liftStr m.results = "N/A"
    rw [liftStr, bestLift, hlv]
    norm_num
  · intro v hv hub hpos
    obtain ⟨x, xs, hlv⟩ : ∃ x xs, liftValues m.results = x :: xs := by
      cases hl : liftValues m.results with
      | nil => rw [hl] at hv; cases hv
      | cons a l => exact ⟨a, l, rfl⟩
    have hM : bestLift m.results = xs.foldl max x := by rw [bestLift, hlv]
    have h1 : xs.foldl max x ≤ v := hub _ (hlv ▸ foldl_max_mem xs x)
    have h2 : v ≤ xs.foldl max x := le_foldl_max xs x v (hlv ▸ hv)
    have heq : bestLift m.results = v := hM.trans (le_antisymm h1 h2)
    show liftStr m.results = _
    rw [liftStr, heq, if_pos hpos]

theorem claim_C4_lift_witness :
    (transformMetric metricNoLift).lift = "N/A" ∧
    (transformMetric metricWithLift).lift = "+64.0%" := by
  constructor
  · refine (claim_C4_lift metricNoLift).1 ?_
    intro r hr
    simp only [metricNoLift, List.mem_singleton] at hr
    rw [hr]
  · have h := (claim_C4_lift metricWithLift).2 (16 / 25)
      (by simp [liftValues, metricWithLift])
      (by simp [liftValues, metricWithLift])
      (by norm_num)
    rw [h]
    have hv : ((16 : Rat) / 25 * 100) = 64 := by norm_num
    have hn : Int.floor ((64 : Rat) * 10 + 1 / 2) = 640 := by
      rw [Int.floor_eq_iff]; norm_num
    rw [hv]
    simp only [jsToFixed1]
    rw [hn]
    rfl

/-- Claim C5: for a results payload whose start is strictly earlier than
its end, the duration in whole days is `ceil((end - start) / 86400000)` on
the millisecond timestamps, it is non-negative, and the transformed
`duration` field is that integer suffixed with " days". -/
theorem claim_C5_duration (p : ResultsPayload) (h : p.start_ms < p.end_ms) :
    durationDays p.start_ms p.end_ms =
      Int.ceil (((p.end_ms - p.start_ms : Int) : Rat) / 86400000) ∧
    0 ≤ durationDays p.start_ms p.end_ms ∧
    (transformOptimizelyResults p).duration =
      toString (durationDays p.start_ms p.end_ms) ++ " days" := by
  refine ⟨by norm_num [durationDays], ?_, rfl⟩
  rw [durationDays]
  refine Int.ceil_nonneg (div_nonneg ?_ (by norm_num))
  have : (0 : Int) ≤ p.end_ms - p.start_ms := by omega
  exact_mod_cast this

theorem claim_C5_duration_witness :
    (transformOptimizelyResults samplePayload).duration = "2 days" ∧
    0 ≤ durationDays samplePayload.start_ms samplePayload.end_ms := by
  have h := claim_C5_duration samplePayload (by norm_num [samplePayload])
  refine ⟨?_, h.2.1⟩
  rw [h.2.2]
  have hd : durationDays samplePayload.start_ms samplePayload.end_ms = 2 := by
    have hc : ((samplePayload.end_ms - samplePayload.start_ms : Int) : Rat) = 86400001 := by
      norm_num [samplePayload]
    rw [durationDays, hc, show ((1000 * 60 * 60 * 24 : Rat)) = 86400000 by norm_num,
      Int.ceil_eq_iff]
    constructor <;> norm_num
  rw [hd]
  rfl

/-- Claim C6: actions normalization of `generate_experiment_report` —
"A, B, C" comma-splits with trimming; '["A","B"]' JSON-parses because it
begins with '['; any string beginning with '[' that fails JSON parsing
yields the descriptive wrapped error and never the comma-split fallback;
an absent parameter yields the three default follow-up actions. -/
theorem claim_C6_actions :
    parseActions (some "A, B, C") =
      .ok (Json.arr [Json.str "A", Json.str "B", Json.str "C"]) ∧
    parseActions (some "[\"A\",\"B\"]") =
      .ok (Json.arr [Json.str "A", Json.str "B"]) ∧
    (∀ s e, startsWithChar s '[' = true → jsonParse s = .error e →
      parseActions (some s) = .error ("Invalid actions format: " ++ e)) ∧
    parseActions none = .ok (Json.arr (defaultActions.map Json.str)) := by
  refine ⟨rfl, rfl, ?_, rfl⟩
  intro s e h1 h2
  have hne : s ≠ "" := by
    intro h
    subst h
    exact absurd h1 (by decide)
  rw [parseActions, show nonEmptyStr (some s) = some s by
    simp [nonEmptyStr, hne]]
  show (if startsWithChar s '[' = true then
      match jsonParse s with
      | .ok v => Except.ok v
      | .error e => Except.error ("Invalid actions format: " ++ e)
    else Except.ok (Json.arr ((jsSplitTrim s).map Json.str))) =
    Except.error ("Invalid actions format: " ++ e)
  rw [if_pos h1, h2]

theorem claim_C6_actions_witness :
    parseActions (some "[oops") =
      .error ("Invalid actions format: " ++ "Unexpected token in JSON") :=
  claim_C6_actions.2.2.1 "[oops" "Unexpected token in JSON" rfl rfl

/-- Claim C7: whenever no access token is resolvable from the
authentication context, every authenticated handler variant throws the
authentication-required error and dispatches no outbound request. -/
theorem claim_C7_auth_before_dispatch (a : Option AuthData)
    (h : resolvedToken a = none) :
    (∀ p, listEventsPrepare p a = .error authRequiredMsg ∧
      listEventsDispatches p a = []) ∧
    (∀ p, createExperimentSrcPrepare p a = .error authRequiredMsg ∧
      createExperimentSrcDispatches p a = []) ∧
    (∀ p, createExperimentP0Prepare p a = .error authRequiredMsg ∧
      createExperimentP0Dispatches p a = []) ∧
    (∀ p, updateExperimentSrcPrepare p a = .error authRequiredMsg ∧
      updateExperimentSrcDispatches p a = []) ∧
    (∀ p, updateExperimentP0Prepare p a = .error authRequiredMsg ∧
      updateExperimentP0Dispatches p a = []) := by
  refine ⟨fun p => ?_, fun p => ?_, fun p => ?_, fun p => ?_, fun p => ?_⟩ <;>
    constructor <;>
    simp [listEventsPrepare, listEventsDispatches,
      createExperimentSrcPrepare, createExperimentSrcDispatches,
      createExperimentP0Prepare, createExperimentP0Dispatches,
      updateExperimentSrcPrepare, updateExperimentSrcDispatches,
      updateExperimentP0Prepare, updateExperimentP0Dispatches, h]

theorem claim_C7_auth_before_dispatch_witness :
    listEventsPrepare { project_id := some "1", include_classic := none } none =
      .error authRequiredMsg ∧
    updateExperimentP0Dispatches
      { experiment_id := "1", metrics := none, otherFields := [] } none = [] := by
  have h := claim_C7_auth_before_dispatch none rfl
  exact ⟨(h.1 _).1, (h.2.2.2.2 _).2⟩

/-- Claim C8: numeric-identifier parsing — "12345" parses to 12345 and the
handlers proceed with it; "abc" makes `update_experiment` and
`list_events` throw the descriptive validation error naming the offending
value instead of continuing with NaN. -/
theorem claim_C8_id_parsing :
    jsParseInt "12345" = some 12345 ∧
    updateExperimentSrcPrepare
        { experiment_id := "12345", metrics := none, otherFields := [] }
        (some tokAuth) =
      .ok { method := "PATCH"
            url := "https://api.optimizely.com/v2/experiments/12345"
            bearer := "tok", body := some (Json.obj []) } ∧
    updateExperimentSrcPrepare
        { experiment_id := "abc", metrics := none, otherFields := [] }
        (some tokAuth) =
      .error "Invalid experiment_id: \"abc\". Must be a valid integer." ∧
    listEventsPrepare { project_id := some "12345", include_classic := none }
        (some tokAuth) =
      .ok { method := "GET"
            url := "https://api.optimizely.com/v2/events?project_id=12345"
            bearer := "tok", body := none } ∧
    listEventsPrepare { project_id := some "abc", include_classic := none }
        (some tokAuth) =
      .error "Invalid project_id: \"abc\". Must be a valid integer." :=
  ⟨rfl, rfl, rfl, rfl, rfl⟩

/-- Claim C9 (implicit): `parseInt` accepts a valid integer prefix followed
by arbitrary non-digit characters — "123abc" parses to 123 (in general,
"123" followed by anything not starting with a digit parses to 123) and
both handlers proceed to their outbound call with id 123. -/
theorem claim_C9_prefix_parsing :
    jsParseInt "123abc" = some 123 ∧
    (∀ t : String, (∀ c, t.data.head? = some c → c.isDigit = false) →
      jsParseInt ("123" ++ t) = some 123) ∧
    updateExperimentSrcPrepare
        { experiment_id := "123abc", metrics := none, otherFields := [] }
        (some tokAuth) =
      .ok { method := "PATCH"
            url := "https://api.optimizely.com/v2/experiments/123"
            bearer := "tok", body := some (Json.obj []) } ∧
    listEventsPrepare { project_id := some "123abc", include_classic := none }
        (some tokAuth) =
      .ok { method := "GET"
            url := "https://api.optimizely.com/v2/events?project_id=123"
            bearer := "tok", body := none } := by
  refine ⟨rfl, ?_, rfl, rfl⟩
  intro t ht
  have hdata : ("123" ++ t).data = '1' :: '2' :: '3' :: t.data := by
    rw [String.data_append]
    rfl
  have htw : t.data.takeWhile Char.isDigit = [] := by
    cases hd : t.data with
    | nil => rfl
    | cons c cs =>
      have hc := ht c (by rw [hd]; rfl)
      rw [List.takeWhile_cons, hc]
      rfl
  have hscrut : ("123" ++ t).data.dropWhile Char.isWhitespace =
      '1' :: '2' :: '3' :: t.data := by
    rw [hdata, List.dropWhile_cons, if_neg (by decide)]
  have htk : ('1' :: '2' :: '3' :: t.data).takeWhile Char.isDigit =
      ['1', '2', '3'] := by
    rw [List.takeWhile_cons, if_pos (by decide), List.takeWhile_cons,
      if_pos (by decide), List.takeWhile_cons, if_pos (by decide), htw]
  rw [jsParseInt, hscrut]
  show (if ('1' : Char) = '-' then (digitsOf ('2' :: '3' :: t.data)).map
        (fun n => -(n : Int))
      else if ('1' : Char) = '+' then (digitsOf ('2' :: '3' :: t.data)).map
        (fun n => (n : Int))
      else (digitsOf ('1' :: '2' :: '3' :: t.data)).map (fun n => (n : Int))) =
    some 123
  rw [if_neg (by decide), if_neg (by decide), digitsOf, htk]
  rfl

theorem claim_C9_prefix_parsing_witness :
    jsParseInt ("123" ++ "abc") = some 123 :=
  claim_C9_prefix_parsing.2.1 "abc" (fun c hc => by
    injection hc with h
    rw [← h]
    rfl)

/-- Claim C10 (implicit): `generate_experiment_report` treats an
empty-string value of any of its three required parameters like an absent
one — the missing-required-fields error is thrown before any JSON parsing
and before the outbound call. -/
theorem claim_C10_empty_required (p : ReportParams)
    (h : p.recipientEmail = some "" ∨ p.experimentName = some "" ∨
      p.optimizelyResultsJson = some "") :
    generateReportPhase p = .error reportRequiredMsg ∧
    generateReportParseCalls p = [] ∧
    generateReportDispatches p = [] := by
  have hm : reportMissingRequired p = true := by
    rcases h with h | h | h <;> simp [reportMissingRequired, h, nonEmptyStr]
  refine ⟨?_, ?_, ?_⟩
  · rw [generateReportPhase, if_pos hm]
  · rw [generateReportParseCalls, if_pos hm]
  · rw [generateReportDispatches, generateReportPhase, if_pos hm]

theorem claim_C10_empty_required_witness :
    generateReportPhase emptyEmailParams = .error reportRequiredMsg ∧
    generateReportDispatches emptyEmailParams = [] := by
  have h := claim_C10_empty_required emptyEmailParams (Or.inl rfl)
  exact ⟨h.1, h.2.2⟩
